import Mathlib

/-!
Shallow embedding of the quotation engine in
`src/utils/calculateQuote.ts` of the NB-JP---IN-QUOTER repository,
together with the data model of `src/types/domain.ts`.

Modelling conventions:
- JavaScript numbers are embedded as exact rationals `ℚ`.  All the
  arithmetic the engine performs (+, -, *, /, Math.ceil, Math.round,
  Math.max) is exact on the inputs the claims quantify over, so `ℚ` is
  the faithful algebraic model; floating-point rounding is outside the
  scope of every claim.  `Number.isFinite` holds for every rational, so
  the finiteness half of a validity check is identically true — except
  for `ContainerLoadRule.max_tons`, whose non-finite case is the subject
  of an explicit claim: that one field is embedded as `Option ℚ`, with
  `none` standing for a non-finite JS number (NaN / ±Infinity), which
  `Number.isFinite` rejects.  All non-finite values behave identically
  in `resolveContainerMaxTons`, so one symbol suffices.
- `undefined` optional inputs become `Option`; the TS type
  `number | null` becomes `Option ℚ` (`none` = null); the input field
  `override_units_per_carton : number | null | undefined` becomes
  `Option (Option ℚ)` (outer `none` = undefined, `some none` = null).
- Functions that `throw` return `Except String`; the mutable `warnings`
  array a resolver pushes to is modelled by returning the list of
  messages the resolver appends, concatenated by the caller in source
  order.
- The numeric interpolation inside warning strings (`toFixed(2)` etc.)
  is elided: warning messages keep their fixed text, no claim depends on
  the interpolated digits.  The LCL missing-rule message is mojibake
  (GBK read as UTF-8) in the source file and is transliterated here.
- Fields of the TS interfaces that the engine never reads (display-only
  optional strings such as `name_en`, `image_path`, `cost_unit`,
  `inner_pack_type`, `unit_cbm`, `carton_cbm`, `default_selected`, and
  the tables `settings`/`ports`/`history`/`packaging_recommendations`)
  are omitted from the records; every field the engine reads is kept
  under its source name.
-/

namespace Quoter

set_option maxRecDepth 4000

inductive Mode
  | FCL
  | LCL
  deriving DecidableEq, Repr

inductive ContainerType
  | «20GP»
  | «40HQ»
  deriving DecidableEq, Repr

inductive QtyInputType
  | bags
  | tons
  deriving DecidableEq, Repr

/-- Provenance of the bag/carton unit price, the string union
`'default' | 'override' | 'custom'` of `QuoteSummary` in the source. -/
inductive PriceSource
  | default
  | override
  | custom
  deriving DecidableEq, Repr

structure Product where
  id : String
  name : String
  refund_rate : ℚ
  purchase_vat_rate : ℚ
  invoice_tax_point : ℚ
  pol_port_id : String
  deriving DecidableEq, Repr

structure PackagingOption where
  id : String
  product_id : String
  name : String
  unit_weight_kg : ℚ
  units_per_carton : Option ℚ
  carton_price_rmb : ℚ
  bag_price_rmb : ℚ
  deriving DecidableEq, Repr

structure Factory where
  id : String
  name : String
  default_port_id : Option String
  deriving DecidableEq, Repr

structure FactoryProductCost where
  id : String
  factory_id : String
  product_id : String
  cost_rmb_per_ton : ℚ
  deriving DecidableEq, Repr

structure PortChargesRule where
  id : String
  port_id : Option String
  mode : Mode
  container_type : Option ContainerType
  base_rmb : ℚ
  extra_rmb_per_ton : ℚ
  deriving DecidableEq, Repr

/-- Container load rule.  `max_tons : Option ℚ` embeds a JS number where
`none` stands for a non-finite value (NaN or ±Infinity): the source
checks `Number.isFinite(rule.max_tons)` before using it and every
non-finite value takes the same branch there. -/
structure ContainerLoadRule where
  id : String
  product_id : String
  container_type : ContainerType
  max_tons : Option ℚ
  deriving DecidableEq, Repr

structure LandFreightRule where
  id : String
  mode : Mode
  factory_id : Option String
  container_type : ContainerType
  min_rmb_per_ton : ℚ
  max_rmb_per_ton : ℚ
  default_rmb_per_ton : ℚ
  deriving DecidableEq, Repr

structure FactoryPackagingOverride where
  id : String
  factory_id : String
  packaging_option_id : String
  carton_price_rmb_override : Option ℚ
  bag_price_rmb_override : Option ℚ
  deriving DecidableEq, Repr

/-- The reference-data snapshot (`AppData`), restricted to the tables
`calculateQuote` reads. -/
structure AppData where
  products : List Product
  packaging_options : List PackagingOption
  factories : List Factory
  factory_product_costs : List FactoryProductCost
  port_charges_rules : List PortChargesRule
  container_load_rules : List ContainerLoadRule
  land_freight_rules : List LandFreightRule
  factory_packaging_overrides : List FactoryPackagingOverride
  deriving DecidableEq, Repr

structure CalculateQuoteInput where
  data : AppData
  product_id : String
  packaging_option_id : String
  factory_id : String
  mode : Mode
  container_type : ContainerType
  fx_rate : ℚ
  margin_pct : ℚ
  qty_input_type : Option QtyInputType := none
  qty_input_value : Option ℚ := none
  override_unit_weight_kg : Option ℚ := none
  override_units_per_carton : Option (Option ℚ) := none
  override_bag_price_rmb : Option ℚ := none
  override_carton_price_rmb : Option ℚ := none
  override_inner_pack_type : Option String := none
  land_fee_override_rmb_per_ton : Option ℚ := none
  deriving DecidableEq, Repr

structure QuoteBreakdown where
  raw_rmb_per_bag : ℚ
  bag_mat_rmb_per_bag : ℚ
  carton_rmb_per_bag : ℚ
  land_rmb_per_bag : ℚ
  land_rmb_per_ton_used : ℚ
  land_total_rmb : ℚ
  port_rmb_per_bag : ℚ
  domestic_total_rmb_per_bag : ℚ
  rebate_rmb_per_bag : ℚ
  net_rmb_per_bag : ℚ
  deriving DecidableEq, Repr

structure QuoteSummary where
  mode : Mode
  container_type : ContainerType
  tons : ℚ
  bags : ℤ
  bags_int : ℤ
  cartons_int : ℤ
  bag_price_source : PriceSource
  carton_price_source : PriceSource
  sell_usd_per_bag : ℚ
  net_rmb_per_bag : ℚ
  cost_usd_per_bag : ℚ
  gp_rmb_per_bag : ℚ
  gp_rmb_total : ℚ
  fcl_port_total_rmb : ℚ
  lcl_port_total_rmb : Option ℚ
  deriving DecidableEq, Repr

structure CalculateQuoteResult where
  summary : QuoteSummary
  breakdown : QuoteBreakdown
  warnings : List String
  deriving DecidableEq, Repr

def containerTypeName : ContainerType → String
  | .«20GP» => "20GP"
  | .«40HQ» => "40HQ"

def modeName : Mode → String
  | .FCL => "FCL"
  | .LCL => "LCL"

/-- Warning pushed by `resolveContainerMaxTons` when no rule row exists. -/
def missingContainerRuleMsg (containerType : ContainerType) : String :=
  "缺少该产品 " ++ containerTypeName containerType ++ " 的装柜规则，已按默认值 20 吨计算。"

/-- Warning pushed by `resolveContainerMaxTons` when the rule row exists
but its `max_tons` is non-finite or non-positive. -/
def invalidMaxTonsMsg (containerType : ContainerType) : String :=
  "该产品 " ++ containerTypeName containerType ++ " 的最大装柜吨数未维护或无效，已按默认值 20 吨计算。"

/-- Warning pushed by `resolveFclPortTotalRmb` when no FCL port rule is
found (the interpolated fallback amount is elided). -/
def missingFclPortRuleMsg (containerType : ContainerType) : String :=
  "缺少 " ++ containerTypeName containerType ++ " 的 FCL 港杂规则，已按默认值计算。"

/-- Warning pushed by `resolveLclPortTotalRmb` when no LCL port rule is
found; the source literal is mojibake GBK text, transliterated here. -/
def missingLclPortRuleMsg : String :=
  "缺少 LCL 港杂规则，请在 Admin 维护。"

/-- Warning pushed by `resolveLandFreightPerTon` when no inland-freight
rule is found (the source message says 港杂 but is emitted by the land
freight resolver). -/
def missingLandRuleMsg (mode : Mode) (containerType : ContainerType) : String :=
  "缺少 " ++ containerTypeName containerType ++ " 的 " ++ modeName mode ++ " 港杂规则，已按默认值 0 RMB 计算。"

/-- Warning pushed when an FCL request is auto-downgraded to LCL (the
interpolated `maxTons.toFixed(2)` is elided). -/
def downgradeMsg : String :=
  "您输入的吨数小于该产品默认装柜吨数，系统已自动切换为 LCL 进行计算。"

/-- Advisory warning pushed when the LCL port total exceeds the FCL port
total (the interpolated amounts are elided). -/
def lclAboveFclMsg : String :=
  "当前 LCL 港杂已高于同吨数的 FCL 港杂，建议选择 FCL。"

/-- The constant `FALLBACK_FCL_PORT` record of the source. -/
def FALLBACK_FCL_PORT : ContainerType → ℚ
  | .«20GP» => 3500
  | .«40HQ» => 4200

/-- Source `ensurePositive`: `Number.isFinite` holds for every rational,
so only the sign test remains. -/
def ensurePositive (value : ℚ) (fieldName : String) : Except String Unit :=
  if value ≤ 0 then .error (fieldName ++ " must be greater than 0") else .ok ()

/-- Source `toNonNegative`: `Number.isFinite` holds for every rational,
so only the sign test remains. -/
def toNonNegative (value fallback : ℚ) : ℚ :=
  if 0 ≤ value then value else fallback

def findProduct? (data : AppData) (productId : String) : Option Product :=
  data.products.find? (fun item => decide (item.id = productId))

/-- Source `findProduct` (throwing lookup). -/
def findProduct (data : AppData) (productId : String) : Except String Product :=
  match findProduct? data productId with
  | some product => .ok product
  | none => .error "Product not found"

def findPackagingOption? (data : AppData) (packagingOptionId : String) : Option PackagingOption :=
  data.packaging_options.find? (fun item => decide (item.id = packagingOptionId))

/-- Source `findPackagingOption` (throwing lookup). -/
def findPackagingOption (data : AppData) (packagingOptionId : String) : Except String PackagingOption :=
  match findPackagingOption? data packagingOptionId with
  | some packagingOption => .ok packagingOption
  | none => .error "Packaging option not found"

def findFactory? (data : AppData) (factoryId : String) : Option Factory :=
  data.factories.find? (fun item => decide (item.id = factoryId))

/-- Source `findFactory` (throwing lookup). -/
def findFactory (data : AppData) (factoryId : String) : Except String Factory :=
  match findFactory? data factoryId with
  | some factory => .ok factory
  | none => .error "Factory not found"

def findFactoryProductCost? (data : AppData) (productId factoryId : String) : Option FactoryProductCost :=
  data.factory_product_costs.find?
    (fun item => decide (item.product_id = productId ∧ item.factory_id = factoryId))

/-- Source `findCostPerTon`: throws when the row is missing, and runs
`ensurePositive` on `cost_rmb_per_ton`. -/
def findCostPerTon (data : AppData) (productId factoryId : String) : Except String ℚ :=
  match findFactoryProductCost? data productId factoryId with
  | none => .error "Missing factory product cost"
  | some cost => do
      ensurePositive cost.cost_rmb_per_ton "cost_rmb_per_ton"
      pure cost.cost_rmb_per_ton

/-- Source `resolveContainerMaxTons`.  Returns the resolved value paired
with the warnings it pushes. -/
def resolveContainerMaxTons (data : AppData) (productId : String)
    (containerType : ContainerType) : ℚ × List String :=
  match data.container_load_rules.find?
      (fun item => decide (item.product_id = productId ∧ item.container_type = containerType)) with
  | none => (20, [missingContainerRuleMsg containerType])
  | some rule =>
    match rule.max_tons with
    | none => (20, [invalidMaxTonsMsg containerType])
    | some maxTons =>
      if maxTons ≤ 0 then (20, [invalidMaxTonsMsg containerType]) else (maxTons, [])

/-- Source `findPortRule`: exact (mode, container_type, port_id) match
first, then the wildcard row whose `port_id` is null or the empty
string, for the same mode and container type. -/
def findPortRule (rules : List PortChargesRule) (mode : Mode)
    (containerType : Option ContainerType) (portId : String) : Option PortChargesRule :=
  match rules.find?
      (fun item => decide (item.mode = mode ∧ item.container_type = containerType ∧ item.port_id = some portId)) with
  | some rule => some rule
  | none =>
    rules.find?
      (fun item => decide (item.mode = mode ∧ item.container_type = containerType ∧
        (item.port_id = none ∨ item.port_id = some "")))

/-- Source `resolveFclPortTotalRmb`.  Returns the resolved value paired
with the warnings it pushes.  Note the rule's `base_rmb` is returned
without a non-negativity clamp. -/
def resolveFclPortTotalRmb (data : AppData) (portId : String)
    (containerType : ContainerType) : ℚ × List String :=
  match findPortRule data.port_charges_rules .FCL (some containerType) portId with
  | none => (FALLBACK_FCL_PORT containerType, [missingFclPortRuleMsg containerType])
  | some rule => (rule.base_rmb, [])

/-- Source `resolveLclPortTotalRmb`.  Note the lookup passes `none` as
the container type (the source passes the literal `null`), and the base
and per-ton components are clamped to non-negative. -/
def resolveLclPortTotalRmb (data : AppData) (portId : String) (tons : ℚ) : ℚ × List String :=
  match findPortRule data.port_charges_rules .LCL none portId with
  | none => (0, [missingLclPortRuleMsg])
  | some rule =>
    let base := toNonNegative rule.base_rmb 0
    let extraPerTon := toNonNegative rule.extra_rmb_per_ton 0
    let extraTons := max 0 (tons - 1)
    let extraFee := ((⌈extraTons⌉ : ℤ) : ℚ) * extraPerTon
    (base + extraFee, [])

/-- Rule-table part of source `resolveLandFreightPerTon`: exact factory
match first, then the wildcard row whose `factory_id` is null or the
empty string. -/
def landFreightFromRules (rules : List LandFreightRule) (mode : Mode) (factoryId : String)
    (containerType : ContainerType) : ℚ × List String :=
  match rules.find?
      (fun item => decide (item.mode = mode ∧ item.container_type = containerType ∧ item.factory_id = some factoryId)) with
  | some rule => (rule.default_rmb_per_ton, [])
  | none =>
    match rules.find?
        (fun item => decide (item.mode = mode ∧ item.container_type = containerType ∧
          (item.factory_id = none ∨ item.factory_id = some ""))) with
    | some rule => (rule.default_rmb_per_ton, [])
    | none => (0, [missingLandRuleMsg mode containerType])

/-- Source `resolveLandFreightPerTon`: a supplied override wins when it
is non-negative (and finite); otherwise the rule table decides, with a
0 fallback plus warning.  The rule's `default_rmb_per_ton` is returned
without a non-negativity clamp. -/
def resolveLandFreightPerTon (rules : List LandFreightRule) (mode : Mode) (factoryId : String)
    (containerType : ContainerType) (overrideValue : Option ℚ) : ℚ × List String :=
  match overrideValue with
  | some v =>
    if 0 ≤ v then (v, [])
    else landFreightFromRules rules mode factoryId containerType
  | none => landFreightFromRules rules mode factoryId containerType

/-- Result of source `resolvePackagingOverrides`: both fields are null
when no row matches or the row leaves them null/undefined. -/
structure ResolvedPackagingOverride where
  carton_price_rmb_override : Option ℚ
  bag_price_rmb_override : Option ℚ
  deriving DecidableEq, Repr

def resolvePackagingOverrides (data : AppData) (factoryId packagingOptionId : String) :
    ResolvedPackagingOverride :=
  match data.factory_packaging_overrides.find?
      (fun item => decide (item.factory_id = factoryId ∧ item.packaging_option_id = packagingOptionId)) with
  | some o => ⟨o.carton_price_rmb_override, o.bag_price_rmb_override⟩
  | none => ⟨none, none⟩

/-- Resolved unit weight, source lines 244-247: the caller override (if
supplied) filtered through `toNonNegative` with the packaging option's
own value as fallback. -/
def resolvedUnitWeightKg (input : CalculateQuoteInput) (packagingOption : PackagingOption) : ℚ :=
  toNonNegative (input.override_unit_weight_kg.getD packagingOption.unit_weight_kg)
    packagingOption.unit_weight_kg

/-- Raw effective units-per-carton, source lines 250-253: the caller
override if the field is present (possibly null), else the packaging
option's value. -/
def unitsPerCartonRawOf (input : CalculateQuoteInput) (packagingOption : PackagingOption) : Option ℚ :=
  match input.override_units_per_carton with
  | some overrideValue => overrideValue
  | none => packagingOption.units_per_carton

/-- Normalisation of units-per-carton, source lines 254-257: null and 0
become null, any other value becomes `max 1 (round value)` (JS
`Math.round` rounds half toward positive infinity, as does `round`). -/
def normalizeUnitsPerCarton (raw : Option ℚ) : Option ℤ :=
  match raw with
  | none => none
  | some q => if q = 0 then none else some (max 1 (round q))

/-- Ton-equivalent of a quantity hint, source lines 271-275: a bags hint
is converted via the unit weight, anything else is read as tons. -/
def tonEquivalent (qtyType : Option QtyInputType) (value unitWeightKg : ℚ) : ℚ :=
  if qtyType = some .bags then value * unitWeightKg / 1000 else value

/-- Source lines 265-276: the hint tons, `none` when no strictly
positive (finite) value was supplied. -/
def computeInputTons (qtyType : Option QtyInputType) (qtyValue : Option ℚ)
    (unitWeightKg : ℚ) : Option ℚ :=
  match qtyValue with
  | some v => if 0 < v then some (tonEquivalent qtyType v unitWeightKg) else none
  | none => none

/-- Source lines 278-283: FCL with a sub-capacity tons hint is forced to
LCL with a warning. -/
def resolveModeWithWarning (mode : Mode) (inputTons : Option ℚ) (maxTons : ℚ) :
    Mode × List String :=
  match inputTons with
  | some t => if mode = .FCL ∧ t < maxTons then (.LCL, [downgradeMsg]) else (mode, [])
  | none => (mode, [])

/-- Source lines 285-302: final (tons, bags) resolution; LCL requires a
usable hint. -/
def resolveTonsBags (mode : Mode) (maxTons unitWeightKg bagsPerTon : ℚ)
    (qtyType : Option QtyInputType) (qtyValue : Option ℚ) : Except String (ℚ × ℚ) :=
  match mode with
  | .FCL => .ok (maxTons, ((⌈maxTons * bagsPerTon⌉ : ℤ) : ℚ))
  | .LCL =>
    match qtyType, qtyValue with
    | some qtyT, some v =>
      if v ≤ 0 then .error "LCL mode requires qty_input_type and qty_input_value"
      else
        match qtyT with
        | .bags => .ok ((((⌈v⌉ : ℤ) : ℚ) * unitWeightKg) / 1000, ((⌈v⌉ : ℤ) : ℚ))
        | .tons => .ok (v, ((⌈v * bagsPerTon⌉ : ℤ) : ℚ))
    | _, _ => .error "LCL mode requires qty_input_type and qty_input_value"

/-- The sell-price formula of source lines 380-381:
`cost_usd_per_bag = net / fx` and `sell = cost_usd / (1 - margin)`. -/
def sellUsdPerBag (netRmbPerBag fxRate marginPct : ℚ) : ℚ :=
  (netRmbPerBag / fxRate) / (1 - marginPct)

/-- Source lines 306-417: the total tail of `calculateQuote` after
quantity and cost resolution (no throw occurs past that point).
`warnings` holds the messages accumulated so far, in push order. -/
def assembleQuote (input : CalculateQuoteInput) (product : Product)
    (packagingOption : PackagingOption) (factory : Factory) (mode : Mode)
    (tons bags : ℚ) (warnings : List String) (costRmbPerTon : ℚ) : CalculateQuoteResult :=
  let data := input.data
  let bagsInt : ℤ := ⌈bags⌉
  let unitsPerCarton := normalizeUnitsPerCarton (unitsPerCartonRawOf input packagingOption)
  let packagingOverride := resolvePackagingOverrides data factory.id packagingOption.id
  let bagPriceSource : PriceSource :=
    match input.override_bag_price_rmb with
    | some _ => .custom
    | none =>
      match packagingOverride.bag_price_rmb_override with
      | some _ => .override
      | none => .default
  let cartonPriceSource : PriceSource :=
    match input.override_carton_price_rmb with
    | some _ => .custom
    | none =>
      match packagingOverride.carton_price_rmb_override with
      | some _ => .override
      | none => .default
  let effectiveBagPrice :=
    input.override_bag_price_rmb.getD
      (packagingOverride.bag_price_rmb_override.getD packagingOption.bag_price_rmb)
  let effectiveCartonPrice :=
    input.override_carton_price_rmb.getD
      (packagingOverride.carton_price_rmb_override.getD packagingOption.carton_price_rmb)
  let cartonsInt : ℤ :=
    match unitsPerCarton with
    | some n => if 0 < n then ⌈(bagsInt : ℚ) / (n : ℚ)⌉ else 0
    | none => 0
  let rawRmbPerBag := costRmbPerTon * (1 + product.invoice_tax_point) * tons / (bagsInt : ℚ)
  let bagMatRmbPerBag := toNonNegative effectiveBagPrice 0
  let cartonRmbPerBag :=
    match unitsPerCarton with
    | some n =>
      if 0 < n ∧ 0 < cartonsInt then
        ((cartonsInt : ℚ) * toNonNegative effectiveCartonPrice 0) / (bagsInt : ℚ)
      else 0
    | none => 0
  let landResolved := resolveLandFreightPerTon data.land_freight_rules mode factory.id
    input.container_type input.land_fee_override_rmb_per_ton
  let landFreightPerTon := landResolved.1
  let landFreightTotal := landFreightPerTon * tons
  let landRmbPerBag := landFreightTotal / (bagsInt : ℚ)
  let fclResolved := resolveFclPortTotalRmb data product.pol_port_id input.container_type
  let fclPortTotalRmb := fclResolved.1
  let lclResolved : Option ℚ × List String :=
    match mode with
    | .LCL =>
      let lcl := resolveLclPortTotalRmb data product.pol_port_id tons
      (some lcl.1, lcl.2)
    | .FCL => (none, [])
  let lclPortTotalRmb := lclResolved.1
  let portTotalRmb :=
    match mode with
    | .FCL => fclPortTotalRmb
    | .LCL => lclPortTotalRmb.getD 0
  let portRmbPerBag := portTotalRmb / (bagsInt : ℚ)
  let advisoryWarnings : List String :=
    match mode, lclPortTotalRmb with
    | .LCL, some v => if fclPortTotalRmb < v then [lclAboveFclMsg] else []
    | _, _ => []
  let domesticTotalRmbPerBag :=
    rawRmbPerBag + bagMatRmbPerBag + cartonRmbPerBag + landRmbPerBag + portRmbPerBag
  let rebateRmbPerBag := rawRmbPerBag * product.refund_rate
  let netRmbPerBag := domesticTotalRmbPerBag - rebateRmbPerBag
  let costUsdPerBag := netRmbPerBag / input.fx_rate
  let sellUsd := sellUsdPerBag netRmbPerBag input.fx_rate input.margin_pct
  let sellRmbPerBag := sellUsd * input.fx_rate
  let gpRmbPerBag := sellRmbPerBag - netRmbPerBag
  let gpRmbTotal := gpRmbPerBag * (bagsInt : ℚ)
  { summary := {
      mode := mode
      container_type := input.container_type
      tons := tons
      bags := bagsInt
      bags_int := bagsInt
      cartons_int := cartonsInt
      bag_price_source := bagPriceSource
      carton_price_source := cartonPriceSource
      sell_usd_per_bag := sellUsd
      net_rmb_per_bag := netRmbPerBag
      cost_usd_per_bag := costUsdPerBag
      gp_rmb_per_bag := gpRmbPerBag
      gp_rmb_total := gpRmbTotal
      fcl_port_total_rmb := fclPortTotalRmb
      lcl_port_total_rmb := lclPortTotalRmb }
    breakdown := {
      raw_rmb_per_bag := rawRmbPerBag
      bag_mat_rmb_per_bag := bagMatRmbPerBag
      carton_rmb_per_bag := cartonRmbPerBag
      land_rmb_per_bag := landRmbPerBag
      land_rmb_per_ton_used := landFreightPerTon
      land_total_rmb := landFreightTotal
      port_rmb_per_bag := portRmbPerBag
      domestic_total_rmb_per_bag := domesticTotalRmbPerBag
      rebate_rmb_per_bag := rebateRmbPerBag
      net_rmb_per_bag := netRmbPerBag }
    warnings := warnings ++ landResolved.2 ++ fclResolved.2 ++ lclResolved.2 ++ advisoryWarnings }

/-- Source `calculateQuote`, lines 227-418, composed of the pieces
above in source order. -/
def calculateQuote (input : CalculateQuoteInput) : Except String CalculateQuoteResult := do
  let data := input.data
  ensurePositive input.fx_rate "fx_rate"
  (if input.margin_pct < 0 ∨ 1 ≤ input.margin_pct then
    Except.error "margin_pct must be in [0, 1)"
  else Except.ok ())
  let product ← findProduct data input.product_id
  let packagingOption ← findPackagingOption data input.packaging_option_id
  let factory ← findFactory data input.factory_id
  (if packagingOption.product_id ≠ product.id then
    Except.error "packaging option does not belong to selected product"
  else Except.ok ())
  let unitWeightKg := resolvedUnitWeightKg input packagingOption
  ensurePositive unitWeightKg "unit_weight_kg"
  let bagsPerTon := 1000 / unitWeightKg
  ensurePositive bagsPerTon "bags_per_ton"
  let containerResolved := resolveContainerMaxTons data product.id input.container_type
  let maxTons := containerResolved.1
  let inputTons := computeInputTons input.qty_input_type input.qty_input_value unitWeightKg
  let modeResolved := resolveModeWithWarning input.mode inputTons maxTons
  let mode := modeResolved.1
  let tonsBags ← resolveTonsBags mode maxTons unitWeightKg bagsPerTon
    input.qty_input_type input.qty_input_value
  let tons := tonsBags.1
  let bags := tonsBags.2
  ensurePositive tons "tons"
  ensurePositive bags "bags"
  let costRmbPerTon ← findCostPerTon data product.id factory.id
  Except.ok (assembleQuote input product packagingOption factory mode tons bags
    (containerResolved.2 ++ modeResolved.2) costRmbPerTon)

instance {ε α : Type} [DecidableEq ε] [DecidableEq α] : DecidableEq (Except ε α) := fun a b =>
  match a, b with
  | .ok x, .ok y =>
    if h : x = y then .isTrue (by rw [h]) else .isFalse (by simp [h])
  | .error x, .error y =>
    if h : x = y then .isTrue (by rw [h]) else .isFalse (by simp [h])
  | .ok _, .error _ => .isFalse (by simp)
  | .error _, .ok _ => .isFalse (by simp)

/-- The transport mode the engine would resolve for a request, when the
product and packaging option resolve (the only data the mode decision
reads). -/
def resolvedModeOf (input : CalculateQuoteInput) : Option Mode :=
  match findProduct? input.data input.product_id,
      findPackagingOption? input.data input.packaging_option_id with
  | some product, some packagingOption =>
    let unitWeightKg := resolvedUnitWeightKg input packagingOption
    let maxTons := (resolveContainerMaxTons input.data product.id input.container_type).1
    some (resolveModeWithWarning input.mode
      (computeInputTons input.qty_input_type input.qty_input_value unitWeightKg) maxTons).1
  | _, _ => none

/-- True exactly when `calculateQuote` throws on the request. -/
def quoteFails (input : CalculateQuoteInput) : Bool :=
  match calculateQuote input with
  | .error _ => true
  | .ok _ => false

/-- The fatal conditions of the specification, as predicates on the
request and its snapshot. -/
def fatalCondition (input : CalculateQuoteInput) : Bool :=
  let data := input.data
  (findProduct? data input.product_id).isNone
  || (findPackagingOption? data input.packaging_option_id).isNone
  || (findFactory? data input.factory_id).isNone
  || (match findProduct? data input.product_id,
        findPackagingOption? data input.packaging_option_id with
      | some product, some packagingOption => decide (packagingOption.product_id ≠ product.id)
      | _, _ => false)
  || (match findFactoryProductCost? data input.product_id input.factory_id with
      | none => true
      | some cost => decide (cost.cost_rmb_per_ton ≤ 0))
  || decide (input.fx_rate ≤ 0)
  || decide (input.margin_pct < 0)
  || decide (1 ≤ input.margin_pct)
  || (decide (resolvedModeOf input = some .LCL) &&
      (input.qty_input_type.isNone || input.qty_input_value.isNone ||
        (match input.qty_input_value with
         | some v => decide (v ≤ 0)
         | none => true)))
  || (match findPackagingOption? data input.packaging_option_id with
      | some packagingOption => decide (resolvedUnitWeightKg input packagingOption ≤ 0)
      | none => false)

/-! Concrete reference data used by witnesses and counterexamples:
a 25 kg-bag product shipped from factory F1 through port PORT1, matching
Scenario A of the specification. -/

def exProduct : Product :=
  { id := "P1", name := "prod", refund_rate := 9/100, purchase_vat_rate := 13/100,
    invoice_tax_point := 3/100, pol_port_id := "PORT1" }

def exOption : PackagingOption :=
  { id := "O1", product_id := "P1", name := "bag25", unit_weight_kg := 25,
    units_per_carton := some 10, carton_price_rmb := 2, bag_price_rmb := 4/5 }

def exFactory : Factory :=
  { id := "F1", name := "fac", default_port_id := some "PORT1" }

def exCost : FactoryProductCost :=
  { id := "C1", factory_id := "F1", product_id := "P1", cost_rmb_per_ton := 3000 }

def exLoadRule : ContainerLoadRule :=
  { id := "L1", product_id := "P1", container_type := .«20GP», max_tons := some (35/2) }

def exData : AppData :=
  { products := [exProduct], packaging_options := [exOption], factories := [exFactory],
    factory_product_costs := [exCost], port_charges_rules := [],
    container_load_rules := [exLoadRule], land_freight_rules := [],
    factory_packaging_overrides := [] }

/-- A valid FCL request without a quantity hint. -/
def exInputFcl : CalculateQuoteInput :=
  { data := exData, product_id := "P1", packaging_option_id := "O1", factory_id := "F1",
    mode := .FCL, container_type := .«20GP», fx_rate := 7, margin_pct := 1/10 }

/-- Placeholder summary used only to extract concrete results total-ly. -/
def emptySummary : QuoteSummary :=
  { mode := .FCL
    container_type := .«20GP»
    tons := 0
    bags := 0
    bags_int := 0
    cartons_int := 0
    bag_price_source := .default
    carton_price_source := .default
    sell_usd_per_bag := 0
    net_rmb_per_bag := 0
    cost_usd_per_bag := 0
    gp_rmb_per_bag := 0
    gp_rmb_total := 0
    fcl_port_total_rmb := 0
    lcl_port_total_rmb := none }

/-- Placeholder breakdown used only to extract concrete results total-ly. -/
def emptyBreakdown : QuoteBreakdown :=
  { raw_rmb_per_bag := 0
    bag_mat_rmb_per_bag := 0
    carton_rmb_per_bag := 0
    land_rmb_per_bag := 0
    land_rmb_per_ton_used := 0
    land_total_rmb := 0
    port_rmb_per_bag := 0
    domestic_total_rmb_per_bag := 0
    rebate_rmb_per_bag := 0
    net_rmb_per_bag := 0 }

/-- Placeholder result used only to extract concrete results total-ly. -/
def emptyResult : CalculateQuoteResult :=
  { summary := emptySummary, breakdown := emptyBreakdown, warnings := [] }

/-- The concrete result `calculateQuote` returns on a request (meaningful
only when the computation succeeds). -/
def quoteResultOf (input : CalculateQuoteInput) : CalculateQuoteResult :=
  (calculateQuote input).toOption.getD emptyResult

/-! Inversion lemmas: what a successful run of `calculateQuote` pins down. -/

theorem calculateQuote_isOk_inv {input : CalculateQuoteInput}
    (h : (calculateQuote input).isOk = true) :
    calculateQuote input = .ok (quoteResultOf input) := by
  unfold quoteResultOf
  cases hq : calculateQuote input with
  | error e => rw [hq] at h; simp [Except.isOk, Except.toBool] at h
  | ok r => simp [Except.toOption, hq]

theorem findProduct?_id {data : AppData} {productId : String} {product : Product}
    (h : findProduct? data productId = some product) : product.id = productId := by
  have hp := List.find?_some h
  simpa using hp

theorem findPackagingOption?_id {data : AppData} {packagingOptionId : String}
    {packagingOption : PackagingOption}
    (h : findPackagingOption? data packagingOptionId = some packagingOption) :
    packagingOption.id = packagingOptionId := by
  have hp := List.find?_some h
  simpa using hp

theorem findFactory?_id {data : AppData} {factoryId : String} {factory : Factory}
    (h : findFactory? data factoryId = some factory) : factory.id = factoryId := by
  have hp := List.find?_some h
  simpa using hp

theorem ensurePositive_ok {value : ℚ} {name : String} {u : Unit}
    (h : ensurePositive value name = Except.ok u) : 0 < value := by
  unfold ensurePositive at h
  by_cases hv : value ≤ 0
  · rw [if_pos hv] at h; simp at h
  · exact lt_of_not_le hv

theorem ite_error_eq_ok {α : Type} {c : Prop} [Decidable c] {e : String} {a v : α}
    (h : (if c then Except.error e else Except.ok a) = Except.ok v) : ¬c ∧ a = v := by
  by_cases hc : c
  · rw [if_pos hc] at h; simp at h
  · rw [if_neg hc] at h
    simp only [Except.ok.injEq] at h
    exact ⟨hc, h⟩

theorem findProduct_ok {data : AppData} {productId : String} {product : Product}
    (h : findProduct data productId = .ok product) :
    findProduct? data productId = some product := by
  unfold findProduct at h
  cases hp : findProduct? data productId <;> rw [hp] at h <;> simp_all

theorem findPackagingOption_ok {data : AppData} {packagingOptionId : String}
    {packagingOption : PackagingOption}
    (h : findPackagingOption data packagingOptionId = .ok packagingOption) :
    findPackagingOption? data packagingOptionId = some packagingOption := by
  unfold findPackagingOption at h
  cases hp : findPackagingOption? data packagingOptionId <;> rw [hp] at h <;> simp_all

theorem findFactory_ok {data : AppData} {factoryId : String} {factory : Factory}
    (h : findFactory data factoryId = .ok factory) :
    findFactory? data factoryId = some factory := by
  unfold findFactory at h
  cases hp : findFactory? data factoryId <;> rw [hp] at h <;> simp_all

theorem findCostPerTon_ok {data : AppData} {productId factoryId : String} {c : ℚ}
    (h : findCostPerTon data productId factoryId = .ok c) :
    ∃ cost, findFactoryProductCost? data productId factoryId = some cost ∧
      cost.cost_rmb_per_ton = c ∧ 0 < c := by
  unfold findCostPerTon at h
  split at h
  next => simp at h
  next cost hf =>
    simp only [bind, Except.bind] at h
    split at h
    next heq => simp at h
    next u heq =>
      have hc := ensurePositive_ok heq
      simp only [pure, Except.pure, Except.ok.injEq] at h
      exact ⟨cost, hf, h, h ▸ hc⟩

theorem calculateQuote_ok_inv {input : CalculateQuoteInput} {r : CalculateQuoteResult}
    (h : calculateQuote input = .ok r) :
    ∃ product packagingOption factory tons bags costRmbPerTon,
      findProduct? input.data input.product_id = some product ∧
      findPackagingOption? input.data input.packaging_option_id = some packagingOption ∧
      findFactory? input.data input.factory_id = some factory ∧
      packagingOption.product_id = product.id ∧
      0 < input.fx_rate ∧
      0 ≤ input.margin_pct ∧ input.margin_pct < 1 ∧
      0 < resolvedUnitWeightKg input packagingOption ∧
      findCostPerTon input.data product.id factory.id = .ok costRmbPerTon ∧
      resolveTonsBags
        (resolveModeWithWarning input.mode
          (computeInputTons input.qty_input_type input.qty_input_value
            (resolvedUnitWeightKg input packagingOption))
          (resolveContainerMaxTons input.data product.id input.container_type).1).1
        (resolveContainerMaxTons input.data product.id input.container_type).1
        (resolvedUnitWeightKg input packagingOption)
        (1000 / resolvedUnitWeightKg input packagingOption)
        input.qty_input_type input.qty_input_value = .ok (tons, bags) ∧
      0 < tons ∧ 0 < bags ∧
      r = assembleQuote input product packagingOption factory
        (resolveModeWithWarning input.mode
          (computeInputTons input.qty_input_type input.qty_input_value
            (resolvedUnitWeightKg input packagingOption))
          (resolveContainerMaxTons input.data product.id input.container_type).1).1
        tons bags
        ((resolveContainerMaxTons input.data product.id input.container_type).2 ++
          (resolveModeWithWarning input.mode
            (computeInputTons input.qty_input_type input.qty_input_value
              (resolvedUnitWeightKg input packagingOption))
            (resolveContainerMaxTons input.data product.id input.container_type).1).2)
        costRmbPerTon := by
  unfold calculateQuote at h
  simp only [bind, Except.bind] at h
  split at h
  next heq => simp at h
  next v heq =>
  have hfx := ensurePositive_ok heq
  split at h
  next heqm => simp at h
  next u heqm =>
  have hm := (ite_error_eq_ok heqm).1
  split at h
  next heqp => simp at h
  next product heqp =>
  have hp := findProduct_ok heqp
  split at h
  next heqo => simp at h
  next packagingOption heqo =>
  have ho := findPackagingOption_ok heqo
  split at h
  next heqf => simp at h
  next factory heqf =>
  have hfa := findFactory_ok heqf
  split at h
  next heqb => simp at h
  next u2 heqb =>
  have hbelongs := (ite_error_eq_ok heqb).1
  split at h
  next hequw => simp at h
  next u3 hequw =>
  have huw := ensurePositive_ok hequw
  split at h
  next heqbpt => simp at h
  next u4 heqbpt =>
  split at h
  next heqtb => simp at h
  next tonsBags heqtb =>
  split at h
  next heqt => simp at h
  next u5 heqt =>
  have htons := ensurePositive_ok heqt
  split at h
  next heqbg => simp at h
  next u6 heqbg =>
  have hbags := ensurePositive_ok heqbg
  split at h
  next heqc => simp at h
  next costRmbPerTon heqc =>
  simp only [Except.ok.injEq] at h
  exact ⟨product, packagingOption, factory, tonsBags.1, tonsBags.2, costRmbPerTon,
    hp, ho, hfa, not_not.mp hbelongs, hfx, le_of_not_lt (fun hlt => hm (Or.inl hlt)),
    lt_of_not_le (fun hge => hm (Or.inr hge)), huw, heqc, by rw [heqtb], htons, hbags, h.symm⟩

theorem computeInputTons_pos {qtyType : Option QtyInputType} {qtyValue : Option ℚ}
    {unitWeightKg v : ℚ} (hv : qtyValue = some v) (h0 : 0 < v) :
    computeInputTons qtyType qtyValue unitWeightKg =
      some (tonEquivalent qtyType v unitWeightKg) := by
  subst hv
  show (if 0 < v then some (tonEquivalent qtyType v unitWeightKg) else none) =
    some (tonEquivalent qtyType v unitWeightKg)
  rw [if_pos h0]

theorem computeInputTons_nonpos {qtyType : Option QtyInputType} {qtyValue : Option ℚ}
    {unitWeightKg v : ℚ} (hv : qtyValue = some v) (h0 : ¬ 0 < v) :
    computeInputTons qtyType qtyValue unitWeightKg = none := by
  subst hv
  show (if 0 < v then some (tonEquivalent qtyType v unitWeightKg) else none) = none
  rw [if_neg h0]

theorem resolveModeWithWarning_downgrade {t maxTons : ℚ} (hlt : t < maxTons) :
    resolveModeWithWarning .FCL (some t) maxTons = (.LCL, [downgradeMsg]) := by
  show (if Mode.FCL = Mode.FCL ∧ t < maxTons then ((Mode.LCL : Mode), [downgradeMsg])
    else (Mode.FCL, [])) = ((Mode.LCL : Mode), [downgradeMsg])
  rw [if_pos ⟨rfl, hlt⟩]

theorem resolveModeWithWarning_keep {mode : Mode} {t maxTons : ℚ} (hge : maxTons ≤ t) :
    resolveModeWithWarning mode (some t) maxTons = (mode, []) := by
  show (if mode = Mode.FCL ∧ t < maxTons then ((Mode.LCL : Mode), [downgradeMsg])
    else (mode, [])) = (mode, [])
  rw [if_neg (fun hc => absurd hc.2 (not_lt.mpr hge))]

theorem resolveModeWithWarning_none (mode : Mode) (maxTons : ℚ) :
    resolveModeWithWarning mode none maxTons = (mode, []) := rfl

theorem assembleQuote_summary_mode (input : CalculateQuoteInput) (product : Product)
    (packagingOption : PackagingOption) (factory : Factory) (mode : Mode) (tons bags : ℚ)
    (warnings : List String) (costRmbPerTon : ℚ) :
    (assembleQuote input product packagingOption factory mode tons bags warnings
      costRmbPerTon).summary.mode = mode := rfl

theorem assembleQuote_summary_tons (input : CalculateQuoteInput) (product : Product)
    (packagingOption : PackagingOption) (factory : Factory) (mode : Mode) (tons bags : ℚ)
    (warnings : List String) (costRmbPerTon : ℚ) :
    (assembleQuote input product packagingOption factory mode tons bags warnings
      costRmbPerTon).summary.tons = tons := rfl

theorem assembleQuote_summary_bags (input : CalculateQuoteInput) (product : Product)
    (packagingOption : PackagingOption) (factory : Factory) (mode : Mode) (tons bags : ℚ)
    (warnings : List String) (costRmbPerTon : ℚ) :
    (assembleQuote input product packagingOption factory mode tons bags warnings
      costRmbPerTon).summary.bags = ⌈bags⌉ := rfl

theorem assembleQuote_warnings_ne_nil (input : CalculateQuoteInput) (product : Product)
    (packagingOption : PackagingOption) (factory : Factory) (mode : Mode) (tons bags : ℚ)
    (warnings : List String) (costRmbPerTon : ℚ) (hw : warnings ≠ []) :
    (assembleQuote input product packagingOption factory mode tons bags warnings
      costRmbPerTon).warnings ≠ [] := by
  simp only [assembleQuote]
  simp only [ne_eq, List.append_eq_nil]
  tauto

theorem assembleQuote_summary_bags_int (input : CalculateQuoteInput) (product : Product)
    (packagingOption : PackagingOption) (factory : Factory) (mode : Mode) (tons bags : ℚ)
    (warnings : List String) (costRmbPerTon : ℚ) :
    (assembleQuote input product packagingOption factory mode tons bags warnings
      costRmbPerTon).summary.bags_int = ⌈bags⌉ := rfl

theorem assembleQuote_cartons_int (input : CalculateQuoteInput) (product : Product)
    (packagingOption : PackagingOption) (factory : Factory) (mode : Mode) (tons bags : ℚ)
    (warnings : List String) (costRmbPerTon : ℚ) :
    (assembleQuote input product packagingOption factory mode tons bags warnings
      costRmbPerTon).summary.cartons_int =
      (match normalizeUnitsPerCarton (unitsPerCartonRawOf input packagingOption) with
        | some n => if 0 < n then ⌈((⌈bags⌉ : ℤ) : ℚ) / (n : ℚ)⌉ else 0
        | none => 0 : ℤ) := rfl

theorem assembleQuote_bag_price_source (input : CalculateQuoteInput) (product : Product)
    (packagingOption : PackagingOption) (factory : Factory) (mode : Mode) (tons bags : ℚ)
    (warnings : List String) (costRmbPerTon : ℚ) :
    (assembleQuote input product packagingOption factory mode tons bags warnings
      costRmbPerTon).summary.bag_price_source =
      (match input.override_bag_price_rmb with
        | some _ => PriceSource.custom
        | none =>
          match (resolvePackagingOverrides input.data factory.id
              packagingOption.id).bag_price_rmb_override with
          | some _ => PriceSource.override
          | none => PriceSource.default) := rfl

theorem assembleQuote_bag_mat (input : CalculateQuoteInput) (product : Product)
    (packagingOption : PackagingOption) (factory : Factory) (mode : Mode) (tons bags : ℚ)
    (warnings : List String) (costRmbPerTon : ℚ) :
    (assembleQuote input product packagingOption factory mode tons bags warnings
      costRmbPerTon).breakdown.bag_mat_rmb_per_bag =
      toNonNegative (input.override_bag_price_rmb.getD
        ((resolvePackagingOverrides input.data factory.id
          packagingOption.id).bag_price_rmb_override.getD packagingOption.bag_price_rmb)) 0 := rfl

theorem assembleQuote_carton_rmb (input : CalculateQuoteInput) (product : Product)
    (packagingOption : PackagingOption) (factory : Factory) (mode : Mode) (tons bags : ℚ)
    (warnings : List String) (costRmbPerTon : ℚ) :
    (assembleQuote input product packagingOption factory mode tons bags warnings
      costRmbPerTon).breakdown.carton_rmb_per_bag =
      (match normalizeUnitsPerCarton (unitsPerCartonRawOf input packagingOption) with
        | some n =>
          if 0 < n ∧ 0 < (match normalizeUnitsPerCarton (unitsPerCartonRawOf input
              packagingOption) with
            | some n => if 0 < n then ⌈((⌈bags⌉ : ℤ) : ℚ) / (n : ℚ)⌉ else 0
            | none => 0 : ℤ) then
            (((match normalizeUnitsPerCarton (unitsPerCartonRawOf input packagingOption) with
              | some n => if 0 < n then ⌈((⌈bags⌉ : ℤ) : ℚ) / (n : ℚ)⌉ else 0
              | none => 0 : ℤ)) : ℚ) *
              toNonNegative (input.override_carton_price_rmb.getD
                ((resolvePackagingOverrides input.data factory.id
                  packagingOption.id).carton_price_rmb_override.getD
                  packagingOption.carton_price_rmb)) 0 / ((⌈bags⌉ : ℤ) : ℚ)
          else 0
        | none => 0) := rfl

theorem assembleQuote_land_rmb (input : CalculateQuoteInput) (product : Product)
    (packagingOption : PackagingOption) (factory : Factory) (mode : Mode) (tons bags : ℚ)
    (warnings : List String) (costRmbPerTon : ℚ) :
    (assembleQuote input product packagingOption factory mode tons bags warnings
      costRmbPerTon).breakdown.land_rmb_per_bag =
      (resolveLandFreightPerTon input.data.land_freight_rules mode factory.id
        input.container_type input.land_fee_override_rmb_per_ton).1 * tons /
        ((⌈bags⌉ : ℤ) : ℚ) := rfl

theorem assembleQuote_port_rmb (input : CalculateQuoteInput) (product : Product)
    (packagingOption : PackagingOption) (factory : Factory) (mode : Mode) (tons bags : ℚ)
    (warnings : List String) (costRmbPerTon : ℚ) :
    (assembleQuote input product packagingOption factory mode tons bags warnings
      costRmbPerTon).breakdown.port_rmb_per_bag =
      (match mode with
        | .FCL => (resolveFclPortTotalRmb input.data product.pol_port_id input.container_type).1
        | .LCL => (resolveLclPortTotalRmb input.data product.pol_port_id tons).1) /
        ((⌈bags⌉ : ℤ) : ℚ) := by
  cases mode <;> rfl

theorem assembleQuote_lcl_port (input : CalculateQuoteInput) (product : Product)
    (packagingOption : PackagingOption) (factory : Factory) (tons bags : ℚ)
    (warnings : List String) (costRmbPerTon : ℚ) :
    (assembleQuote input product packagingOption factory .LCL tons bags warnings
      costRmbPerTon).summary.lcl_port_total_rmb =
      some (resolveLclPortTotalRmb input.data product.pol_port_id tons).1 := rfl

theorem resolveLclPortTotalRmb_found {data : AppData} {portId : String} {tons : ℚ}
    {rule : PortChargesRule}
    (h : findPortRule data.port_charges_rules .LCL none portId = some rule) :
    resolveLclPortTotalRmb data portId tons =
      (toNonNegative rule.base_rmb 0 +
        ((⌈max 0 (tons - 1)⌉ : ℤ) : ℚ) * toNonNegative rule.extra_rmb_per_ton 0, []) := by
  unfold resolveLclPortTotalRmb
  rw [h]

theorem normalizeUnitsPerCarton_none : normalizeUnitsPerCarton none = none := rfl

theorem normalizeUnitsPerCarton_zero : normalizeUnitsPerCarton (some 0) = none := by
  show (if (0:ℚ) = 0 then none else some (max 1 (round (0:ℚ)))) = none
  rw [if_pos rfl]

theorem normalizeUnitsPerCarton_nonzero {q : ℚ} (hq : q ≠ 0) :
    normalizeUnitsPerCarton (some q) = some (max 1 (round q)) := by
  show (if q = 0 then none else some (max 1 (round q))) = some (max 1 (round q))
  rw [if_neg hq]

theorem toNonNegative_nonneg (v : ℚ) : 0 ≤ toNonNegative v 0 := by
  unfold toNonNegative
  split
  · assumption
  · exact le_refl 0

theorem resolveLclPortTotalRmb_nonneg (data : AppData) (portId : String) (tons : ℚ) :
    0 ≤ (resolveLclPortTotalRmb data portId tons).1 := by
  unfold resolveLclPortTotalRmb
  split
  · exact le_refl 0
  · refine add_nonneg (toNonNegative_nonneg _) (mul_nonneg ?_ (toNonNegative_nonneg _))
    exact_mod_cast Int.ceil_nonneg (le_max_left 0 _)

/-- C9 (amended): the engine's sell price is
`sellUsdPerBag net fx margin = (net / fx) / (1 - margin)`, and for a
fixed strictly positive net cost and strictly positive FX rate it is
strictly increasing in the margin over [0,1).  (The original claim,
quantifying over arbitrary fixed `net_rmb_per_bag`, fails at net = 0,
where the sell price is constantly 0 — see the counterexample.) -/
theorem sellUsdPerBag_margin_monotone :
    (∀ (input : CalculateQuoteInput) (r : CalculateQuoteResult),
      calculateQuote input = .ok r →
      r.summary.sell_usd_per_bag =
        sellUsdPerBag r.summary.net_rmb_per_bag input.fx_rate input.margin_pct) ∧
    (∀ netRmbPerBag fxRate m₁ m₂ : ℚ, 0 < netRmbPerBag → 0 < fxRate →
      0 ≤ m₁ → m₁ < m₂ → m₂ < 1 →
      sellUsdPerBag netRmbPerBag fxRate m₁ < sellUsdPerBag netRmbPerBag fxRate m₂) := by
  constructor
  · intro input r hok
    obtain ⟨product, packagingOption, factory, tons, bags, costRmbPerTon,
      _, _, _, _, _, _, _, _, _, _, _, _, hr⟩ := calculateQuote_ok_inv hok
    subst hr
    rfl
  · intro net fx m₁ m₂ hnet hfx hm₁ h₁₂ hm₂
    unfold sellUsdPerBag
    have ha : 0 < net / fx := div_pos hnet hfx
    have hc : (0:ℚ) < 1 - m₂ := by linarith
    have hcb : 1 - m₂ < 1 - m₁ := by linarith
    exact div_lt_div_of_pos_left ha hc hcb

/-- C9 counterexample: at net cost 0 (a valid fixed value of
`net_rmb_per_bag`) the sell price is not strictly increasing in the
margin: margins 0 and 1/2 lie in [0,1), 0 < 1/2, yet the sell prices
are equal. -/
theorem sellUsdPerBag_margin_monotone_cex :
    (0:ℚ) ≤ 0 ∧ (0:ℚ) < 1/2 ∧ (1/2:ℚ) < 1 ∧
    sellUsdPerBag 0 1 0 = sellUsdPerBag 0 1 (1/2) ∧
    ¬ sellUsdPerBag 0 1 0 < sellUsdPerBag 0 1 (1/2) := by
  refine ⟨le_refl 0, by norm_num, by norm_num, ?_, ?_⟩ <;>
    unfold sellUsdPerBag <;> norm_num

/-- Witness for C9: the sell-price formula is exercised on a concrete
successful quote, and strict monotonicity holds at net = 1, fx = 1,
margins 0 < 1/2. -/
theorem sellUsdPerBag_margin_monotone_witness :
    calculateQuote exInputFcl = .ok (quoteResultOf exInputFcl) ∧
    (quoteResultOf exInputFcl).summary.sell_usd_per_bag =
      sellUsdPerBag (quoteResultOf exInputFcl).summary.net_rmb_per_bag
        exInputFcl.fx_rate exInputFcl.margin_pct ∧
    sellUsdPerBag 1 1 0 < sellUsdPerBag 1 1 (1/2) := by
  have hok : calculateQuote exInputFcl = .ok (quoteResultOf exInputFcl) :=
    calculateQuote_isOk_inv (by with_unfolding_all decide)
  exact ⟨hok, sellUsdPerBag_margin_monotone.1 exInputFcl _ hok,
    sellUsdPerBag_margin_monotone.2 1 1 0 (1/2) one_pos one_pos le_rfl
      (by norm_num) (by norm_num)⟩

/-- C4: every missing-rule case substitutes its documented fallback and
appends exactly one warning, and no resolver can abort: a missing
container-load rule yields `max_tons = 20`; a missing FCL port rule
yields 3500 RMB for 20GP and 4200 RMB for 40HQ; a missing LCL port rule
yields a 0 port charge; a missing inland-freight rule (with no caller
override) yields a 0 RMB/ton rate. -/
theorem missingRuleFallbacks :
    (∀ (data : AppData) (productId : String) (containerType : ContainerType),
      data.container_load_rules.find?
        (fun item => decide (item.product_id = productId ∧ item.container_type = containerType)) =
          none →
      resolveContainerMaxTons data productId containerType =
        (20, [missingContainerRuleMsg containerType])) ∧
    (∀ (data : AppData) (portId : String),
      findPortRule data.port_charges_rules .FCL (some .«20GP») portId = none →
      resolveFclPortTotalRmb data portId .«20GP» = (3500, [missingFclPortRuleMsg .«20GP»])) ∧
    (∀ (data : AppData) (portId : String),
      findPortRule data.port_charges_rules .FCL (some .«40HQ») portId = none →
      resolveFclPortTotalRmb data portId .«40HQ» = (4200, [missingFclPortRuleMsg .«40HQ»])) ∧
    (∀ (data : AppData) (portId : String) (tons : ℚ),
      findPortRule data.port_charges_rules .LCL none portId = none →
      resolveLclPortTotalRmb data portId tons = (0, [missingLclPortRuleMsg])) ∧
    (∀ (rules : List LandFreightRule) (mode : Mode) (factoryId : String)
        (containerType : ContainerType),
      rules.find? (fun item => decide (item.mode = mode ∧
        item.container_type = containerType ∧ item.factory_id = some factoryId)) = none →
      rules.find? (fun item => decide (item.mode = mode ∧
        item.container_type = containerType ∧
        (item.factory_id = none ∨ item.factory_id = some ""))) = none →
      resolveLandFreightPerTon rules mode factoryId containerType none =
        (0, [missingLandRuleMsg mode containerType])) := by
  refine ⟨?_, ?_, ?_, ?_, ?_⟩
  · intro data productId containerType hmiss
    unfold resolveContainerMaxTons
    rw [hmiss]
  · intro data portId hmiss
    unfold resolveFclPortTotalRmb
    rw [hmiss]
    rfl
  · intro data portId hmiss
    unfold resolveFclPortTotalRmb
    rw [hmiss]
    rfl
  · intro data portId tons hmiss
    unfold resolveLclPortTotalRmb
    rw [hmiss]
  · intro rules mode factoryId containerType hexact hwild
    unfold resolveLandFreightPerTon landFreightFromRules
    rw [hexact, hwild]

/-- Witness for C4: on an empty rule table every resolver produces its
documented fallback with one warning, and the full computation on a
snapshot with no container-load, port-charge, or land-freight rules
still succeeds. -/
theorem missingRuleFallbacks_witness :
    resolveContainerMaxTons { exData with container_load_rules := [] } "P1" .«20GP» =
      (20, [missingContainerRuleMsg .«20GP»]) ∧
    resolveFclPortTotalRmb exData "PORT1" .«20GP» = (3500, [missingFclPortRuleMsg .«20GP»]) ∧
    resolveFclPortTotalRmb exData "PORT1" .«40HQ» = (4200, [missingFclPortRuleMsg .«40HQ»]) ∧
    resolveLclPortTotalRmb exData "PORT1" 5 = (0, [missingLclPortRuleMsg]) ∧
    resolveLandFreightPerTon exData.land_freight_rules .FCL "F1" .«20GP» none =
      (0, [missingLandRuleMsg .FCL .«20GP»]) ∧
    (calculateQuote { exInputFcl with data := { exData with container_load_rules := [] } }).isOk
      = true := by
  refine ⟨missingRuleFallbacks.1 _ _ _ (by with_unfolding_all decide),
    missingRuleFallbacks.2.1 _ _ (by with_unfolding_all decide),
    missingRuleFallbacks.2.2.1 _ _ (by with_unfolding_all decide),
    missingRuleFallbacks.2.2.2.1 _ _ _ (by with_unfolding_all decide),
    missingRuleFallbacks.2.2.2.2 _ _ _ _ (by with_unfolding_all decide)
      (by with_unfolding_all decide),
    by with_unfolding_all decide⟩

/-- C10: when a container-load rule row exists for the pair but its
`max_tons` is non-finite (`none` in the embedding) or non-positive, the
resolver ignores the stored value and behaves as in the missing-rule
case: fallback 20 tons plus one appended warning (the warning text
differs from the missing-rule text, as in the source), and being a
total function it never aborts the computation. -/
theorem containerMaxTons_invalid (data : AppData) (productId : String)
    (containerType : ContainerType) (rule : ContainerLoadRule)
    (hfind : data.container_load_rules.find?
      (fun item => decide (item.product_id = productId ∧ item.container_type = containerType)) =
        some rule)
    (hbad : ∀ q, rule.max_tons = some q → q ≤ 0) :
    resolveContainerMaxTons data productId containerType =
      (20, [invalidMaxTonsMsg containerType]) := by
  unfold resolveContainerMaxTons
  rw [hfind]
  show (match rule.max_tons with
    | none => ((20 : ℚ), [invalidMaxTonsMsg containerType])
    | some maxTons =>
      if maxTons ≤ 0 then ((20 : ℚ), [invalidMaxTonsMsg containerType]) else (maxTons, [])) =
    (20, [invalidMaxTonsMsg containerType])
  cases hmt : rule.max_tons with
  | none => rfl
  | some q =>
    have hq := hbad q hmt
    show (if q ≤ 0 then ((20 : ℚ), [invalidMaxTonsMsg containerType]) else (q, [])) =
      (20, [invalidMaxTonsMsg containerType])
    rw [if_pos hq]

/-- Container-load rule rows with an invalid `max_tons`: the value 0 and
a non-finite value (`none`). -/
def exBadLoadRuleZero : ContainerLoadRule :=
  { id := "L1", product_id := "P1", container_type := .«20GP», max_tons := some 0 }

def exBadLoadRuleNaN : ContainerLoadRule :=
  { id := "L1", product_id := "P1", container_type := .«20GP», max_tons := none }

def exDataBadZero : AppData := { exData with container_load_rules := [exBadLoadRuleZero] }

def exDataBadNaN : AppData := { exData with container_load_rules := [exBadLoadRuleNaN] }

def exInputBadZero : CalculateQuoteInput := { exInputFcl with data := exDataBadZero }

/-- Witness for C10: a rule row with `max_tons = 0` and one with a
non-finite value both fall back to 20 tons with a warning, and a full
quote over such a snapshot still succeeds with `tons = 20`. -/
theorem containerMaxTons_invalid_witness :
    resolveContainerMaxTons exDataBadZero "P1" .«20GP» = (20, [invalidMaxTonsMsg .«20GP»]) ∧
    resolveContainerMaxTons exDataBadNaN "P1" .«20GP» = (20, [invalidMaxTonsMsg .«20GP»]) ∧
    (quoteResultOf exInputBadZero).summary.tons = 20 ∧
    (calculateQuote exInputBadZero).isOk = true := by
  refine ⟨containerMaxTons_invalid exDataBadZero "P1" .«20GP» exBadLoadRuleZero
      (by with_unfolding_all decide)
      (fun q hq => le_of_eq (Option.some.inj (show some (0:ℚ) = some q from hq)).symm),
    containerMaxTons_invalid exDataBadNaN "P1" .«20GP» exBadLoadRuleNaN
      (by with_unfolding_all decide)
      (fun q hq => absurd hq (by simp [exBadLoadRuleNaN])),
    by with_unfolding_all decide, by with_unfolding_all decide⟩

/-- C2: an FCL request carrying a strictly positive quantity hint whose
ton-equivalent is below the resolved `max_tons` is auto-downgraded:
whenever such a request succeeds, the returned `summary.mode` is LCL and
the warnings list is non-empty (it carries the downgrade notice). -/
theorem calculateQuote_autoDowngrade (input : CalculateQuoteInput) (r : CalculateQuoteResult)
    (product : Product) (packagingOption : PackagingOption) (v : ℚ)
    (hok : calculateQuote input = .ok r)
    (hmode : input.mode = .FCL)
    (hv : input.qty_input_value = some v) (hv0 : 0 < v)
    (hp : findProduct? input.data input.product_id = some product)
    (hoo : findPackagingOption? input.data input.packaging_option_id = some packagingOption)
    (hlt : tonEquivalent input.qty_input_type v (resolvedUnitWeightKg input packagingOption)
      < (resolveContainerMaxTons input.data product.id input.container_type).1) :
    r.summary.mode = .LCL ∧ r.warnings ≠ [] := by
  obtain ⟨product', packagingOption', factory, tons, bags, costRmbPerTon,
    hp', hoo', hfa, hbelongs, hfx, hm0, hm1, huw, hcost, htb, htons, hbags, hr⟩ :=
    calculateQuote_ok_inv hok
  obtain rfl : product' = product := by
    rw [hp] at hp'; exact (Option.some.inj hp').symm
  obtain rfl : packagingOption' = packagingOption := by
    rw [hoo] at hoo'; exact (Option.some.inj hoo').symm
  rw [hmode, computeInputTons_pos hv hv0, resolveModeWithWarning_downgrade hlt] at hr
  subst hr
  constructor
  · apply assembleQuote_summary_mode
  · apply assembleQuote_warnings_ne_nil
    simp

/-- C3: a successful FCL request that is not auto-downgraded — no
quantity hint, or every supplied hint value has ton-equivalent at least
the resolved `max_tons` — quotes `tons` equal to the resolved `max_tons`
and `bags = ceil(tons * 1000 / unit_weight_kg)`. -/
theorem calculateQuote_fcl_capacity (input : CalculateQuoteInput) (r : CalculateQuoteResult)
    (product : Product) (packagingOption : PackagingOption)
    (hok : calculateQuote input = .ok r)
    (hmode : input.mode = .FCL)
    (hp : findProduct? input.data input.product_id = some product)
    (hoo : findPackagingOption? input.data input.packaging_option_id = some packagingOption)
    (hq : ∀ v, input.qty_input_value = some v →
      (resolveContainerMaxTons input.data product.id input.container_type).1 ≤
        tonEquivalent input.qty_input_type v (resolvedUnitWeightKg input packagingOption)) :
    r.summary.tons = (resolveContainerMaxTons input.data product.id input.container_type).1 ∧
    r.summary.bags =
      ⌈(resolveContainerMaxTons input.data product.id input.container_type).1 * 1000 /
        resolvedUnitWeightKg input packagingOption⌉ := by
  obtain ⟨product', packagingOption', factory, tons, bags, costRmbPerTon,
    hp', hoo', hfa, hbelongs, hfx, hm0, hm1, huw, hcost, htb, htons, hbags, hr⟩ :=
    calculateQuote_ok_inv hok
  have e1 : product = product' := Option.some.inj (hp.symm.trans hp')
  subst e1
  have e2 : packagingOption = packagingOption' := Option.some.inj (hoo.symm.trans hoo')
  subst e2
  have hMW : resolveModeWithWarning input.mode
      (computeInputTons input.qty_input_type input.qty_input_value
        (resolvedUnitWeightKg input packagingOption))
      (resolveContainerMaxTons input.data product.id input.container_type).1 =
      (.FCL, []) := by
    cases hv : input.qty_input_value with
    | none =>
      rw [show computeInputTons input.qty_input_type none
          (resolvedUnitWeightKg input packagingOption) = none from rfl, hmode]
      exact resolveModeWithWarning_none _ _
    | some v =>
      by_cases h0 : 0 < v
      · rw [computeInputTons_pos rfl h0, hmode]
        exact resolveModeWithWarning_keep (hq v hv)
      · rw [computeInputTons_nonpos rfl h0, hmode]
        exact resolveModeWithWarning_none _ _
  simp only [hMW] at htb hr
  unfold resolveTonsBags at htb
  simp only [Except.ok.injEq, Prod.mk.injEq] at htb
  obtain ⟨htons_eq, hbags_eq⟩ := htb
  subst hr
  constructor
  · rw [assembleQuote_summary_tons]
    exact htons_eq.symm
  · rw [assembleQuote_summary_bags, ← hbags_eq, Int.ceil_intCast, mul_div_assoc]


def exInputDown : CalculateQuoteInput :=
  { exInputFcl with qty_input_type := some .tons, qty_input_value := some 5 }

/-- Witness for C2: requesting FCL with a 5-ton hint against a 17.5-ton
20GP capacity succeeds, downgraded to LCL with a warning. -/
theorem calculateQuote_autoDowngrade_witness :
    (quoteResultOf exInputDown).summary.mode = .LCL ∧
    (quoteResultOf exInputDown).warnings ≠ [] :=
  calculateQuote_autoDowngrade exInputDown (quoteResultOf exInputDown) exProduct exOption 5
    (calculateQuote_isOk_inv (by with_unfolding_all decide)) rfl rfl
    (by with_unfolding_all decide)
    (by with_unfolding_all decide) (by with_unfolding_all decide)
    (by with_unfolding_all decide)

/-- Witness for C3: the hint-less FCL request quotes the resolved
capacity 17.5 tons and ceil(17.5 * 1000 / 25) = 700 bags. -/
theorem calculateQuote_fcl_capacity_witness :
    ((quoteResultOf exInputFcl).summary.tons =
      (resolveContainerMaxTons exInputFcl.data exProduct.id exInputFcl.container_type).1 ∧
     (quoteResultOf exInputFcl).summary.bags =
      ⌈(resolveContainerMaxTons exInputFcl.data exProduct.id exInputFcl.container_type).1 * 1000 /
        resolvedUnitWeightKg exInputFcl exOption⌉) ∧
    (resolveContainerMaxTons exInputFcl.data exProduct.id exInputFcl.container_type).1 = 35/2 ∧
    (quoteResultOf exInputFcl).summary.bags = 700 := by
  refine ⟨calculateQuote_fcl_capacity exInputFcl (quoteResultOf exInputFcl) exProduct exOption
      (calculateQuote_isOk_inv (by with_unfolding_all decide)) rfl
      (by with_unfolding_all decide) (by with_unfolding_all decide)
      (fun v hv => by
        rw [show exInputFcl.qty_input_value = none from rfl] at hv
        exact Option.noConfusion hv),
    by with_unfolding_all decide, by with_unfolding_all decide⟩

/-- C1: whenever any fatal condition of the request holds — unresolved
product/packaging/factory reference, packaging option not belonging to
the product, missing or non-positive factory-product cost, non-positive
`fx_rate`, `margin_pct` outside [0,1) (in particular `margin_pct = 1`
throws before any price is synthesised), resolved mode LCL with a
missing or non-positive quantity hint, or non-positive resolved
`unit_weight_kg` — `calculateQuote` throws and produces no result. -/
theorem calculateQuote_fatal (input : CalculateQuoteInput)
    (h : fatalCondition input = true) : quoteFails input = true := by
  unfold quoteFails
  cases hq : calculateQuote input with
  | error e => rfl
  | ok r =>
    exfalso
    obtain ⟨product, packagingOption, factory, tons, bags, costRmbPerTon,
      hp, hoo, hfa, hbelongs, hfx, hm0, hm1, huw, hcost, htb, htons, hbags, hr⟩ :=
      calculateQuote_ok_inv hq
    have hpid : product.id = input.product_id := findProduct?_id hp
    have hfid : factory.id = input.factory_id := findFactory?_id hfa
    obtain ⟨cost, hcostFind, hcostEq, hcostPos⟩ := findCostPerTon_ok hcost
    rw [hpid, hfid] at hcostFind
    unfold fatalCondition at h
    simp only [Bool.or_eq_true, Bool.and_eq_true, decide_eq_true_eq] at h
    rcases h with ((((((((h | h) | h) | h) | h) | h) | h) | h) | h) | h
    · rw [hp] at h; simp at h
    · rw [hoo] at h; simp at h
    · rw [hfa] at h; simp at h
    · rw [hp, hoo] at h; simp [hbelongs] at h
    · rw [hcostFind] at h
      simp only [decide_eq_true_eq] at h
      rw [hcostEq] at h
      exact absurd hcostPos (not_lt.mpr h)
    · exact absurd hfx (not_lt.mpr h)
    · exact absurd hm0 (not_le.mpr h)
    · exact absurd hm1 (not_lt.mpr h)
    · obtain ⟨hM, hbad⟩ := h
      have hMeq : resolvedModeOf input = some ((resolveModeWithWarning input.mode
          (computeInputTons input.qty_input_type input.qty_input_value
            (resolvedUnitWeightKg input packagingOption))
          (resolveContainerMaxTons input.data product.id input.container_type).1).1) := by
        unfold resolvedModeOf
        rw [hp, hoo]
      have hMode : (resolveModeWithWarning input.mode
          (computeInputTons input.qty_input_type input.qty_input_value
            (resolvedUnitWeightKg input packagingOption))
          (resolveContainerMaxTons input.data product.id input.container_type).1).1 = .LCL :=
        Option.some.inj (hMeq.symm.trans hM)
      rw [hMode] at htb
      cases hqt : input.qty_input_type with
      | none => rw [hqt] at htb; simp [resolveTonsBags] at htb
      | some t =>
        cases hqv : input.qty_input_value with
        | none => rw [hqt, hqv] at htb; simp [resolveTonsBags] at htb
        | some v =>
          rw [hqt, hqv] at htb
          by_cases hv : v ≤ 0
          · simp [resolveTonsBags, hv] at htb
          · rcases hbad with (hb | hb) | hb
            · rw [hqt] at hb; simp at hb
            · rw [hqv] at hb; simp at hb
            · rw [hqv] at hb
              simp only [decide_eq_true_eq] at hb
              exact hv hb
    · rw [hoo] at h
      simp only [decide_eq_true_eq] at h
      exact absurd huw (not_lt.mpr h)

def exInputMarginOne : CalculateQuoteInput := { exInputFcl with margin_pct := 1 }

/-- Witness for C1: `margin_pct = 1` is a fatal condition and the engine
throws on it (no `Infinity` sell price is ever produced). -/
theorem calculateQuote_fatal_witness :
    fatalCondition exInputMarginOne = true ∧ quoteFails exInputMarginOne = true :=
  ⟨by with_unfolding_all decide, calculateQuote_fatal exInputMarginOne
    (by with_unfolding_all decide)⟩

/-- An LCL port-charge rule keyed to the request's own container type
(20GP); the engine's lookup passes a null container type and therefore
never finds it. -/
def exLclRule20 : PortChargesRule :=
  { id := "R5", port_id := some "PORT1", mode := .LCL, container_type := some .«20GP»,
    base_rmb := 100, extra_rmb_per_ton := 10 }

def exData5 : AppData := { exData with port_charges_rules := [exLclRule20] }

def exInput5 : CalculateQuoteInput :=
  { exInputFcl with
      data := exData5
      mode := .LCL
      qty_input_type := some .tons
      qty_input_value := some 5 }

/-- C5 counterexample: an LCL quote for container type 20GP over a
snapshot holding exactly one LCL port rule keyed (LCL, 20GP, PORT1).
The claim says that rule is resolved and the LCL port total is
100 + ceil(max(0, 5-1)) * 10 = 140; the engine resolves with a null
container type instead, finds nothing, warns, and returns total 0. -/
theorem lclPortRule_container_cex :
    calculateQuote exInput5 = .ok (quoteResultOf exInput5) ∧
    (quoteResultOf exInput5).summary.mode = .LCL ∧
    exInput5.container_type = .«20GP» ∧
    exData5.port_charges_rules = [exLclRule20] ∧
    exLclRule20.mode = .LCL ∧
    exLclRule20.container_type = some exInput5.container_type ∧
    exLclRule20.port_id = some exProduct.pol_port_id ∧
    (quoteResultOf exInput5).summary.tons = 5 ∧
    exLclRule20.base_rmb + ((⌈max 0 ((5:ℚ) - 1)⌉ : ℤ) : ℚ) * exLclRule20.extra_rmb_per_ton
      = 140 ∧
    (quoteResultOf exInput5).summary.lcl_port_total_rmb = some 0 ∧
    missingLclPortRuleMsg ∈ (quoteResultOf exInput5).warnings ∧
    some (0:ℚ) ≠ some (140:ℚ) := by
  refine ⟨calculateQuote_isOk_inv (by with_unfolding_all decide), ?_⟩
  with_unfolding_all decide

/-- C5 (amended): in LCL mode the port-charge rule is resolved for
(mode = LCL, container type null — container-agnostic — and the
product's POL port id), falling back to the wildcard row (port_id null
or empty) for the same keying; when such a rule is found, the LCL port
total is `max(base_rmb, 0) + ceil(max(0, tons - 1)) *
max(extra_rmb_per_ton, 0)` — equal to the claimed
`base_rmb + ceil(max(0, tons - 1)) * extra_rmb_per_ton` whenever both
stored amounts are non-negative. -/
theorem lclPortTotal_amended (input : CalculateQuoteInput) (r : CalculateQuoteResult)
    (product : Product) (rule : PortChargesRule)
    (hok : calculateQuote input = .ok r)
    (hp : findProduct? input.data input.product_id = some product)
    (hmode : r.summary.mode = .LCL)
    (hrule : findPortRule input.data.port_charges_rules .LCL none product.pol_port_id =
      some rule) :
    r.summary.lcl_port_total_rmb =
      some (toNonNegative rule.base_rmb 0 +
        ((⌈max 0 (r.summary.tons - 1)⌉ : ℤ) : ℚ) * toNonNegative rule.extra_rmb_per_ton 0) := by
  obtain ⟨product', packagingOption', factory, tons, bags, costRmbPerTon,
    hp', hoo', hfa, hbelongs, hfx, hm0, hm1, huw, hcost, htb, htons, hbags, hr⟩ :=
    calculateQuote_ok_inv hok
  have e1 : product = product' := Option.some.inj (hp.symm.trans hp')
  subst e1
  subst hr
  rw [assembleQuote_summary_mode] at hmode
  rw [hmode, assembleQuote_lcl_port, assembleQuote_summary_tons,
    resolveLclPortTotalRmb_found hrule]

/-- A container-agnostic LCL port rule the engine does find. -/
def exLclRuleWild : PortChargesRule :=
  { id := "R5W", port_id := some "PORT1", mode := .LCL, container_type := none,
    base_rmb := 100, extra_rmb_per_ton := 10 }

def exDataLcl : AppData := { exData with port_charges_rules := [exLclRuleWild] }

def exInputLcl : CalculateQuoteInput :=
  { exInputFcl with
      data := exDataLcl
      mode := .LCL
      qty_input_type := some .tons
      qty_input_value := some 5 }

/-- Witness for C5: with a (LCL, null, PORT1) rule of base 100 and 10
RMB per extra ton, a 5-ton LCL quote carries an LCL port total of
100 + ceil(4) * 10 = 140. -/
theorem lclPortTotal_amended_witness :
    (quoteResultOf exInputLcl).summary.lcl_port_total_rmb =
      some (toNonNegative exLclRuleWild.base_rmb 0 +
        ((⌈max 0 ((quoteResultOf exInputLcl).summary.tons - 1)⌉ : ℤ) : ℚ) *
          toNonNegative exLclRuleWild.extra_rmb_per_ton 0) ∧
    (quoteResultOf exInputLcl).summary.lcl_port_total_rmb = some 140 := by
  refine ⟨lclPortTotal_amended exInputLcl (quoteResultOf exInputLcl) exProduct exLclRuleWild
    (calculateQuote_isOk_inv (by with_unfolding_all decide))
    (by with_unfolding_all decide) (by with_unfolding_all decide)
    (by with_unfolding_all decide), by with_unfolding_all decide⟩

/-- C6 (amended): `bag_mat_rmb_per_bag` and `carton_rmb_per_bag` are
non-negative on every successful quote, because their inputs are
clamped; `land_rmb_per_bag` and `port_rmb_per_bag` are non-negative
provided the resolved land rate and the resolved FCL port total are
non-negative (the engine does not clamp a negative
`default_rmb_per_ton` or a negative FCL `base_rmb` coming from the rule
tables — see the counterexample; the LCL port total is always
clamped). -/
theorem breakdown_nonneg (input : CalculateQuoteInput) (r : CalculateQuoteResult)
    (product : Product) (factory : Factory)
    (hok : calculateQuote input = .ok r)
    (hp : findProduct? input.data input.product_id = some product)
    (hfa : findFactory? input.data input.factory_id = some factory)
    (hland : 0 ≤ (resolveLandFreightPerTon input.data.land_freight_rules r.summary.mode
      factory.id input.container_type input.land_fee_override_rmb_per_ton).1)
    (hfcl : 0 ≤ (resolveFclPortTotalRmb input.data product.pol_port_id
      input.container_type).1) :
    0 ≤ r.breakdown.bag_mat_rmb_per_bag ∧ 0 ≤ r.breakdown.carton_rmb_per_bag ∧
    0 ≤ r.breakdown.land_rmb_per_bag ∧ 0 ≤ r.breakdown.port_rmb_per_bag := by
  obtain ⟨product', packagingOption', factory', tons, bags, costRmbPerTon,
    hp', hoo', hfa', hbelongs, hfx, hm0, hm1, huw, hcost, htb, htons, hbags, hr⟩ :=
    calculateQuote_ok_inv hok
  have e1 : product = product' := Option.some.inj (hp.symm.trans hp')
  subst e1
  have e2 : factory = factory' := Option.some.inj (hfa.symm.trans hfa')
  subst e2
  subst hr
  rw [assembleQuote_summary_mode] at hland
  have hbagsInt : (0:ℚ) ≤ ((⌈bags⌉ : ℤ) : ℚ) := by
    exact_mod_cast Int.ceil_nonneg hbags.le
  refine ⟨?_, ?_, ?_, ?_⟩
  · rw [assembleQuote_bag_mat]
    exact toNonNegative_nonneg _
  · rw [assembleQuote_carton_rmb]
    split
    · split
      next hcond =>
        refine div_nonneg (mul_nonneg ?_ (toNonNegative_nonneg _)) hbagsInt
        exact_mod_cast hcond.2.le
      next => exact le_refl 0
    · exact le_refl 0
  · rw [assembleQuote_land_rmb]
    exact div_nonneg (mul_nonneg hland htons.le) hbagsInt
  · rw [assembleQuote_port_rmb]
    refine div_nonneg ?_ hbagsInt
    split
    · exact hfcl
    · exact resolveLclPortTotalRmb_nonneg input.data product.pol_port_id tons

/-- A matching land-freight rule carrying a negative default rate; the
engine uses it unclamped. -/
def exNegLandRule : LandFreightRule :=
  { id := "LF1", mode := .FCL, factory_id := some "F1", container_type := .«20GP»,
    min_rmb_per_ton := 0, max_rmb_per_ton := 0, default_rmb_per_ton := -50 }

def exDataNegLand : AppData := { exData with land_freight_rules := [exNegLandRule] }

def exInputNegLand : CalculateQuoteInput := { exInputFcl with data := exDataNegLand }

/-- C6 counterexample: with a land-freight rule whose
`default_rmb_per_ton` is -50, the quote still succeeds and its
`land_rmb_per_bag` is strictly negative (-50 * 17.5 / 700 = -1.25),
refuting unconditional non-negativity of the breakdown fields. -/
theorem breakdown_nonneg_cex :
    calculateQuote exInputNegLand = .ok (quoteResultOf exInputNegLand) ∧
    (quoteResultOf exInputNegLand).breakdown.land_rmb_per_bag = -5/4 ∧
    ¬ 0 ≤ (quoteResultOf exInputNegLand).breakdown.land_rmb_per_bag := by
  refine ⟨calculateQuote_isOk_inv (by with_unfolding_all decide), ?_⟩
  with_unfolding_all decide

/-- Witness for C6: on the reference snapshot (no land, port rules: the
fallbacks 0 and 3500 are non-negative) all four per-bag cost lines are
non-negative. -/
theorem breakdown_nonneg_witness :
    0 ≤ (quoteResultOf exInputFcl).breakdown.bag_mat_rmb_per_bag ∧
    0 ≤ (quoteResultOf exInputFcl).breakdown.carton_rmb_per_bag ∧
    0 ≤ (quoteResultOf exInputFcl).breakdown.land_rmb_per_bag ∧
    0 ≤ (quoteResultOf exInputFcl).breakdown.port_rmb_per_bag :=
  breakdown_nonneg exInputFcl (quoteResultOf exInputFcl) exProduct exFactory
    (calculateQuote_isOk_inv (by with_unfolding_all decide))
    (by with_unfolding_all decide) (by with_unfolding_all decide)
    (by with_unfolding_all decide) (by with_unfolding_all decide)

/-- C7 (amended): when the effective units-per-carton is null or exactly
0, `cartons_int = 0` and `carton_rmb_per_bag = 0` regardless of the
carton price; any other value q — including non-integers and negative
numbers — is first normalised to `max(1, round(q))` and
`cartons_int = ceil(bags_int / max(1, round(q)))` (so a non-integer or
negative q does NOT yield 0 cartons — see the counterexample). -/
theorem cartons_normalization (input : CalculateQuoteInput) (r : CalculateQuoteResult)
    (packagingOption : PackagingOption)
    (hok : calculateQuote input = .ok r)
    (hoo : findPackagingOption? input.data input.packaging_option_id = some packagingOption) :
    (unitsPerCartonRawOf input packagingOption = none ∨
      unitsPerCartonRawOf input packagingOption = some 0 →
      r.summary.cartons_int = 0 ∧ r.breakdown.carton_rmb_per_bag = 0) ∧
    (∀ q, unitsPerCartonRawOf input packagingOption = some q → q ≠ 0 →
      r.summary.cartons_int =
        ⌈((r.summary.bags_int : ℤ) : ℚ) / ((max 1 (round q) : ℤ) : ℚ)⌉) := by
  obtain ⟨product', packagingOption', factory, tons, bags, costRmbPerTon,
    hp', hoo', hfa, hbelongs, hfx, hm0, hm1, huw, hcost, htb, htons, hbags, hr⟩ :=
    calculateQuote_ok_inv hok
  have e2 : packagingOption = packagingOption' := Option.some.inj (hoo.symm.trans hoo')
  subst e2
  subst hr
  constructor
  · intro hraw
    have hnorm : normalizeUnitsPerCarton (unitsPerCartonRawOf input packagingOption) = none := by
      rcases hraw with h | h
      · rw [h]
        exact normalizeUnitsPerCarton_none
      · rw [h]
        exact normalizeUnitsPerCarton_zero
    constructor
    · rw [assembleQuote_cartons_int, hnorm]
    · rw [assembleQuote_carton_rmb, hnorm]
  · intro q hq hq0
    have hnorm : normalizeUnitsPerCarton (unitsPerCartonRawOf input packagingOption) =
        some (max 1 (round q)) := by
      rw [hq]
      exact normalizeUnitsPerCarton_nonzero hq0
    rw [assembleQuote_cartons_int, assembleQuote_summary_bags_int, hnorm]
    show (if 0 < max 1 (round q) then
        ⌈((⌈bags⌉ : ℤ) : ℚ) / ((max 1 (round q) : ℤ) : ℚ)⌉ else 0) = _
    rw [if_pos (lt_of_lt_of_le zero_lt_one (le_max_left 1 _))]

/-- The packaging option with a fractional units-per-carton of 2/5. -/
def exOptionFrac : PackagingOption := { exOption with units_per_carton := some (2/5) }

def exDataFrac : AppData := { exData with packaging_options := [exOptionFrac] }

def exInputFrac : CalculateQuoteInput := { exInputFcl with data := exDataFrac }

/-- C7 counterexample: with `units_per_carton = 2/5` — not a positive
integer — the claim predicts `cartons_int = 0`; the engine instead
normalises 2/5 to max(1, round(2/5)) = 1 and quotes 700 cartons. -/
theorem cartons_normalization_cex :
    calculateQuote exInputFrac = .ok (quoteResultOf exInputFrac) ∧
    exOptionFrac.units_per_carton = some (2/5) ∧
    (¬ ∃ n : ℤ, 0 < n ∧ (2:ℚ)/5 = (n : ℚ)) ∧
    (quoteResultOf exInputFrac).summary.cartons_int = 700 ∧
    (700 : ℤ) ≠ 0 := by
  refine ⟨calculateQuote_isOk_inv (by with_unfolding_all decide),
    by with_unfolding_all decide, ?_, by with_unfolding_all decide,
    by with_unfolding_all decide⟩
  rintro ⟨n, hn, he⟩
  have h1 : (1:ℚ) ≤ (n : ℚ) := by exact_mod_cast hn
  rw [← he] at h1
  norm_num at h1

/-- An input overriding units-per-carton to null (uncartonised). -/
def exInputNoCarton : CalculateQuoteInput :=
  { exInputFcl with override_units_per_carton := some none }

/-- Witness for C7: with units-per-carton 10 (a positive integer) the
engine quotes ceil(700 / 10) = 70 cartons; with a null
units-per-carton override it quotes 0 cartons and no carton cost. -/
theorem cartons_normalization_witness :
    (quoteResultOf exInputFcl).summary.cartons_int =
      ⌈(((quoteResultOf exInputFcl).summary.bags_int : ℤ) : ℚ) /
        ((max 1 (round (10:ℚ)) : ℤ) : ℚ)⌉ ∧
    (quoteResultOf exInputFcl).summary.cartons_int = 70 ∧
    ((quoteResultOf exInputNoCarton).summary.cartons_int = 0 ∧
     (quoteResultOf exInputNoCarton).breakdown.carton_rmb_per_bag = 0) := by
  refine ⟨(cartons_normalization exInputFcl (quoteResultOf exInputFcl) exOption
      (calculateQuote_isOk_inv (by with_unfolding_all decide))
      (by with_unfolding_all decide)).2 10 (by with_unfolding_all decide)
      (by norm_num),
    by with_unfolding_all decide,
    (cartons_normalization exInputNoCarton (quoteResultOf exInputNoCarton) exOption
      (calculateQuote_isOk_inv (by with_unfolding_all decide))
      (by with_unfolding_all decide)).1 (Or.inl (by with_unfolding_all decide))⟩

/-- C8 (amended): the effective bag material price is resolved caller
override → factory packaging override → option default, with
`bag_price_source` set to custom/override/default respectively, and
`bag_mat_rmb_per_bag` equal to the selected price clamped to
non-negative — in particular, with a factory override and no caller
override, `bag_price_source = override` and `bag_mat_rmb_per_bag`
equals the override value whenever that value is non-negative (a
negative override is clamped to 0 — see the counterexample). -/
theorem bagPrice_precedence (input : CalculateQuoteInput) (r : CalculateQuoteResult)
    (packagingOption : PackagingOption) (factory : Factory)
    (hok : calculateQuote input = .ok r)
    (hoo : findPackagingOption? input.data input.packaging_option_id = some packagingOption)
    (hfa : findFactory? input.data input.factory_id = some factory) :
    (∀ b, input.override_bag_price_rmb = some b →
      r.summary.bag_price_source = .custom ∧
      r.breakdown.bag_mat_rmb_per_bag = toNonNegative b 0) ∧
    (∀ b, input.override_bag_price_rmb = none →
      (resolvePackagingOverrides input.data factory.id
        packagingOption.id).bag_price_rmb_override = some b →
      r.summary.bag_price_source = .override ∧
      r.breakdown.bag_mat_rmb_per_bag = toNonNegative b 0 ∧
      (0 ≤ b → r.breakdown.bag_mat_rmb_per_bag = b)) ∧
    (input.override_bag_price_rmb = none →
      (resolvePackagingOverrides input.data factory.id
        packagingOption.id).bag_price_rmb_override = none →
      r.summary.bag_price_source = .default ∧
      r.breakdown.bag_mat_rmb_per_bag = toNonNegative packagingOption.bag_price_rmb 0) := by
  obtain ⟨product', packagingOption', factory', tons, bags, costRmbPerTon,
    hp', hoo', hfa', hbelongs, hfx, hm0, hm1, huw, hcost, htb, htons, hbags, hr⟩ :=
    calculateQuote_ok_inv hok
  have e2 : packagingOption = packagingOption' := Option.some.inj (hoo.symm.trans hoo')
  subst e2
  have e3 : factory = factory' := Option.some.inj (hfa.symm.trans hfa')
  subst e3
  subst hr
  refine ⟨?_, ?_, ?_⟩
  · intro b hb
    rw [assembleQuote_bag_price_source, assembleQuote_bag_mat, hb]
    exact ⟨rfl, by rw [Option.getD_some]⟩
  · intro b hb hov
    rw [assembleQuote_bag_price_source, assembleQuote_bag_mat, hb, hov]
    refine ⟨rfl, by rw [Option.getD_none, Option.getD_some], ?_⟩
    intro hb0
    rw [Option.getD_none, Option.getD_some]
    unfold toNonNegative
    rw [if_pos hb0]
  · intro hb hov
    rw [assembleQuote_bag_price_source, assembleQuote_bag_mat, hb, hov]
    exact ⟨rfl, by rw [Option.getD_none, Option.getD_none]⟩

/-- A factory packaging override carrying a negative bag price. -/
def exNegOverride : FactoryPackagingOverride :=
  { id := "FO1", factory_id := "F1", packaging_option_id := "O1",
    carton_price_rmb_override := none, bag_price_rmb_override := some (-1) }

def exDataNegOv : AppData := { exData with factory_packaging_overrides := [exNegOverride] }

def exInputNegOv : CalculateQuoteInput := { exInputFcl with data := exDataNegOv }

/-- C8 counterexample: a factory override of -1 with no caller override
yields `bag_price_source = override` but `bag_mat_rmb_per_bag = 0`, not
the override value -1: the claimed equality with the factory override
value fails without a non-negativity proviso. -/
theorem bagPrice_precedence_cex :
    calculateQuote exInputNegOv = .ok (quoteResultOf exInputNegOv) ∧
    exInputNegOv.override_bag_price_rmb = none ∧
    (resolvePackagingOverrides exDataNegOv "F1" "O1").bag_price_rmb_override = some (-1) ∧
    (quoteResultOf exInputNegOv).summary.bag_price_source = .override ∧
    (quoteResultOf exInputNegOv).breakdown.bag_mat_rmb_per_bag = 0 ∧
    (0 : ℚ) ≠ -1 := by
  refine ⟨calculateQuote_isOk_inv (by with_unfolding_all decide), ?_⟩
  with_unfolding_all decide

/-- A factory packaging override of 0.50 against an option default of
0.80, Scenario D of the specification. -/
def exOverrideHalf : FactoryPackagingOverride :=
  { id := "FO2", factory_id := "F1", packaging_option_id := "O1",
    carton_price_rmb_override := none, bag_price_rmb_override := some (1/2) }

def exDataOvHalf : AppData := { exData with factory_packaging_overrides := [exOverrideHalf] }

def exInputOvHalf : CalculateQuoteInput := { exInputFcl with data := exDataOvHalf }

/-- Witness for C8: with factory override 0.50 and option default 0.80
and no caller override, the source is `override` and the bag material
cost is 0.50. -/
theorem bagPrice_precedence_witness :
    ((quoteResultOf exInputOvHalf).summary.bag_price_source = .override ∧
     (quoteResultOf exInputOvHalf).breakdown.bag_mat_rmb_per_bag = toNonNegative (1/2) 0 ∧
     (0 ≤ (1/2 : ℚ) → (quoteResultOf exInputOvHalf).breakdown.bag_mat_rmb_per_bag = 1/2)) ∧
    (quoteResultOf exInputOvHalf).breakdown.bag_mat_rmb_per_bag = 1/2 ∧
    exOption.bag_price_rmb = 4/5 := by
  refine ⟨(bagPrice_precedence exInputOvHalf (quoteResultOf exInputOvHalf) exOption exFactory
      (calculateQuote_isOk_inv (by with_unfolding_all decide))
      (by with_unfolding_all decide) (by with_unfolding_all decide)).2.1 (1/2)
      (by with_unfolding_all decide) (by with_unfolding_all decide),
    by with_unfolding_all decide, by with_unfolding_all decide⟩

end Quoter
